import Mathlib

/-!
Verification of `atom/browser/ui/message_box_win.cc`: a shallow embedding of
the Windows message-box presenter.  Pure data flow is embedded directly; the
one external effect, the native `TaskDialogIndirect` call, is modelled by an
oracle argument `nativeId : Int` standing for the identifier the native call
stores into `id` (the local is initialised to `0`, so a failed native call
leaves `0`).  The asynchronous overload is modelled as a trace of events.
-/

namespace Atom

/-- The three values of the `MessageBoxType` enumeration. -/
inductive MessageBoxType
| information
| warning
| error
deriving DecidableEq, Repr

/-- A platform window handle; `none` plays the role of `NULL`. We only need
equality on handles, so a `Nat` stands for the opaque `HWND` value. -/
abbrev HWND := Nat

/-- Small command IDs are taken by Windows, so button identifiers start from
a large number: `const int kIDStart = 100;`. -/
def kIDStart : Int := 100

/-- The Windows constant `IDCANCEL` from `WinUser.h` (value 2), the
identifier the native dialog produces on cancellation. -/
def IDCANCEL : Int := 2

/-- Task-dialog flag `TDF_USE_HICON_MAIN` (Windows `commctrl.h`, `0x0002`). -/
def TDF_USE_HICON_MAIN : Nat := 2

/-- Task-dialog flag `TDF_ALLOW_DIALOG_CANCELLATION` (`0x0008`). -/
def TDF_ALLOW_DIALOG_CANCELLATION : Nat := 8

/-- Task-dialog flag `TDF_SIZE_TO_CONTENT` (`0x01000000`). -/
def TDF_SIZE_TO_CONTENT : Nat := 16777216

/-- A Skia bitmap. Its pixel data is irrelevant to this unit, so it is an
opaque payload carried around unchanged. -/
structure SkBitmap where
  data : Nat
deriving DecidableEq, Repr

/-- An image, `gfx::ImageSkia`: either null (no bitmap) or wrapping a
bitmap; the nullable `icon.bitmap()` pointer is the `Option`. -/
structure ImageSkia where
  bitmap : Option SkBitmap
deriving DecidableEq, Repr

/-- The null check `icon.isNull()`. -/
def ImageSkia.isNull (icon : ImageSkia) : Bool :=
  icon.bitmap.isNone

/-- A native `HICON`. Modelled from the spec: the icon/image conversion
utility (`IconUtil::CreateHICONFromSkBitmap`) is an out-of-scope external
collaborator; the handle is modelled as carrying the converted bitmap. -/
structure HICON where
  fromBitmap : SkBitmap
deriving DecidableEq, Repr

/-- Modelled from the spec: `IconUtil::CreateHICONFromSkBitmap`, the external
conversion from a Skia bitmap to the native icon representation. -/
def IconUtil.CreateHICONFromSkBitmap (bitmap : SkBitmap) : HICON :=
  ⟨bitmap⟩

/-- The built-in task-dialog icon glyphs used by the type switch. -/
inductive BuiltinIcon
| td_information_icon
| td_warning_icon
| td_error_icon
deriving DecidableEq, Repr

/-- A `TASKDIALOG_BUTTON` entry: native identifier plus label text. -/
structure TASKDIALOG_BUTTON where
  nButtonID : Int
  pszButtonText : String
deriving DecidableEq, Repr

/-- The fields of `TASKDIALOGCONFIG` that this unit assigns.  (`cbSize` and
`hInstance` are pure Windows plumbing — a struct size and a module handle —
and carry no behavior, so they are not modelled.)  Optional string/icon
fields are `none` when the code leaves them zero-initialised. -/
structure TASKDIALOGCONFIG where
  hwndParent : Option HWND
  dwFlags : Nat
  pszWindowTitle : String
  pButtons : List TASKDIALOG_BUTTON
  cButtons : Nat
  hMainIcon : Option HICON
  pszMainIcon : Option BuiltinIcon
  pszMainInstruction : Option String
  pszContent : Option String
deriving DecidableEq, Repr

/-- The loop at lines 34–36: `dialog_buttons.push_back({i + kIDStart,
buttons[i].c_str()})` for each index `i`. -/
def mkDialogButtons (buttons : List String) : List TASKDIALOG_BUTTON :=
  buttons.enum.map fun p => ⟨(p.1 : Int) + kIDStart, p.2⟩

/-- The `switch (type)` at lines 58–68 selecting `config.pszMainIcon`. -/
def builtinIconFor (type : MessageBoxType) : BuiltinIcon :=
  match type with
  | MessageBoxType.information => BuiltinIcon.td_information_icon
  | MessageBoxType.warning => BuiltinIcon.td_warning_icon
  | MessageBoxType.error => BuiltinIcon.td_error_icon

/-- Lines 34–77 of `ShowMessageBoxUTF16`: build the `TASKDIALOGCONFIG`.
`config.pButtons = &dialog_buttons.front()` dereferences the front of
`dialog_buttons`, which is undefined behavior when the vector is empty, so
the builder is `none` in that case. -/
def ShowMessageBoxUTF16Config (parent : Option HWND) (type : MessageBoxType)
    (buttons : List String) (cancel_id : Int)
    (title message detail : String) (icon : ImageSkia) :
    Option TASKDIALOGCONFIG :=
  let dialog_buttons := mkDialogButtons buttons
  let flags : Nat := TDF_SIZE_TO_CONTENT |||
    (if cancel_id ≠ 0 then TDF_ALLOW_DIALOG_CANCELLATION else 0)
  match dialog_buttons with
  | [] => none
  | _first :: _ =>
    let base : TASKDIALOGCONFIG :=
      { hwndParent := parent
        dwFlags := flags
        pszWindowTitle := title
        pButtons := dialog_buttons
        cButtons := dialog_buttons.length
        hMainIcon := none
        pszMainIcon := none
        pszMainInstruction := none
        pszContent := none }
    let withIcon : TASKDIALOGCONFIG :=
      match icon.bitmap with
      | some bitmap =>
        { base with
            dwFlags := base.dwFlags ||| TDF_USE_HICON_MAIN
            hMainIcon := some (IconUtil.CreateHICONFromSkBitmap bitmap) }
      | none =>
        { base with pszMainIcon := some (builtinIconFor type) }
    some (if detail.isEmpty then
      { withIcon with pszContent := some message }
    else
      { withIcon with
          pszMainInstruction := some message
          pszContent := some detail })

/-- The function `ShowMessageBoxUTF16` (lines 26–85).  `nativeId` is the identifier the
native `TaskDialogIndirect` call leaves in `id` (`0` when the call fails,
since `id` is initialised to `0`).  Lines 81–84: `0` and `IDCANCEL` map to
`cancel_id`, anything else to `id - kIDStart`. -/
def ShowMessageBoxUTF16 (parent : Option HWND) (type : MessageBoxType)
    (buttons : List String) (cancel_id : Int)
    (title message detail : String) (icon : ImageSkia)
    (nativeId : Int) : Option Int :=
  (ShowMessageBoxUTF16Config parent type buttons cancel_id title message
      detail icon).map fun _config =>
    if nativeId = 0 ∨ nativeId = IDCANCEL then cancel_id
    else nativeId - kIDStart

/-- Modelled from the spec: `base::UTF8ToUTF16`, an out-of-scope string
encoding conversion; Lean strings are abstract Unicode, so the conversion
preserves the content unchanged. -/
def UTF8ToUTF16 (s : String) : String := s

/-- The native-window abstraction: only its platform handle matters here
(`GetAcceleratedWidget`). -/
structure NativeWindow where
  acceleratedWidget : HWND
deriving DecidableEq, Repr

/-- The synchronous `ShowMessageBox` overload (lines 107–132): converts the
strings to UTF-16, extracts the parent handle (`NULL` when no parent), and
calls `ShowMessageBoxUTF16`.  (`DialogScope` is a scoped marker with no
effect on the returned value.) -/
def ShowMessageBox (parent : Option NativeWindow) (type : MessageBoxType)
    (buttons : List String) (cancel_id : Int)
    (title message detail : String) (icon : ImageSkia)
    (nativeId : Int) : Option Int :=
  let utf16_buttons := buttons.map UTF8ToUTF16
  let hwnd_parent : Option HWND := parent.map fun w => w.acceleratedWidget
  ShowMessageBoxUTF16 hwnd_parent type utf16_buttons cancel_id
    (UTF8ToUTF16 title) (UTF8ToUTF16 message) (UTF8ToUTF16 detail) icon
    nativeId

/-- Threads involved in the asynchronous path: the control (UI/calling)
thread and the spawned worker thread. -/
inductive ThreadKind
| control
| worker
deriving DecidableEq, Repr

/-- Observable effects of the asynchronous path.  `posted = false` means the
callback is run directly (synchronously) on that thread; `posted = true`
means the invocation is posted to that thread via the task runner. -/
inductive Event
| dialogShown (onThread : ThreadKind)
| callbackInvoked (result : Int) (onThread : ThreadKind) (posted : Bool)
| threadObjectDeleted (onThread : ThreadKind)
deriving DecidableEq, Repr

/-- The worker body `RunMessageBoxInNewThread` (lines 87–103), executed on the worker thread:
runs the synchronous path (showing the dialog on the worker), posts
`callback(result)` to the UI (control) thread, and schedules the thread
object for deferred deletion on the control thread.  `none` when the
synchronous path is undefined (empty button list). -/
def RunMessageBoxInNewThread (parent : Option NativeWindow)
    (type : MessageBoxType) (buttons : List String) (cancel_id : Int)
    (title message detail : String) (icon : ImageSkia)
    (nativeId : Int) : Option (List Event) :=
  (ShowMessageBox parent type buttons cancel_id title message detail icon
      nativeId).map fun result =>
    [Event.dialogShown ThreadKind.worker,
     Event.callbackInvoked result ThreadKind.control true,
     Event.threadObjectDeleted ThreadKind.control]

/-- The asynchronous `ShowMessageBox` overload (lines 134–157).
`threadStartOk` is the result of `thread->Start()`.  On failure the callback
runs immediately with `cancel_id` on the calling (control) thread and
nothing else happens; on success `RunMessageBoxInNewThread` is posted to the
worker thread and its trace is produced. -/
def ShowMessageBoxAsync (threadStartOk : Bool)
    (parent : Option NativeWindow) (type : MessageBoxType)
    (buttons : List String) (cancel_id : Int)
    (title message detail : String) (icon : ImageSkia)
    (nativeId : Int) : Option (List Event) :=
  if threadStartOk then
    RunMessageBoxInNewThread parent type buttons cancel_id title message
      detail icon nativeId
  else
    some [Event.callbackInvoked cancel_id ThreadKind.control false]

/-- Lines 159–160, `ShowErrorBox`: an empty body, so no observable effect. -/
def ShowErrorBox (_title _content : String) : List Event := []

/-- The identifiers the native `TaskDialogIndirect` call can leave in `id`
for this configuration: `0` (call failed, `id` keeps its initial value),
`IDCANCEL` (dialog cancelled), or the identifier of one of the registered
custom buttons (assigned `i + kIDStart` at line 36). -/
def mayProduce (buttons : List String) (id : Int) : Prop :=
  id = 0 ∨ id = IDCANCEL ∨ ∃ i < buttons.length, id = (i : Int) + kIDStart

/-- The dialog-button vector is empty exactly when the label list is. -/
theorem mkDialogButtons_eq_nil_iff (buttons : List String) :
    mkDialogButtons buttons = [] ↔ buttons = [] := by
  simp [mkDialogButtons]

/-- With at least one button, `ShowMessageBoxUTF16` returns the id-to-index
mapping of lines 79–84 applied to the oracle identifier. -/
theorem showUTF16_eq (parent : Option HWND) (type : MessageBoxType)
    (buttons : List String) (cancel_id : Int)
    (title message detail : String) (icon : ImageSkia) (nativeId : Int)
    (h : buttons ≠ []) :
    ShowMessageBoxUTF16 parent type buttons cancel_id title message detail
        icon nativeId =
      some (if nativeId = 0 ∨ nativeId = IDCANCEL then cancel_id
            else nativeId - kIDStart) := by
  cases buttons with
  | nil => exact absurd rfl h
  | cons b bs => rfl

/-- With at least one button, the synchronous overload returns the same
id-to-index mapping (the UTF-8→UTF-16 and parent-handle marshaling does not
change the result). -/
theorem showSync_eq (parent : Option NativeWindow) (type : MessageBoxType)
    (buttons : List String) (cancel_id : Int)
    (title message detail : String) (icon : ImageSkia) (nativeId : Int)
    (h : buttons ≠ []) :
    ShowMessageBox parent type buttons cancel_id title message detail icon
        nativeId =
      some (if nativeId = 0 ∨ nativeId = IDCANCEL then cancel_id
            else nativeId - kIDStart) := by
  cases buttons with
  | nil => exact absurd rfl h
  | cons b bs => rfl

/-- Claim C1: each button `i` is assigned native identifier `i + kIDStart`,
and when the user chooses button `i` — so the native call produces that
identifier, which is neither `0` nor `IDCANCEL` — the synchronous show
operation maps it back as `id - kIDStart`, returning exactly the button's
zero-based position in the original sequence. -/
theorem claim_c1_chosen_button_position (parent : Option NativeWindow)
    (type : MessageBoxType) (buttons : List String) (cancel_id : Int)
    (title message detail : String) (icon : ImageSkia) (i : Nat)
    (h : i < buttons.length) :
    (mkDialogButtons buttons).map TASKDIALOG_BUTTON.nButtonID =
      (List.range buttons.length).map (fun j : Nat => (j : Int) + kIDStart) ∧
    ShowMessageBox parent type buttons cancel_id title message detail icon
      ((i : Int) + kIDStart) = some (i : Int) := by
  constructor
  · rw [mkDialogButtons, List.map_map]
    rw [show (TASKDIALOG_BUTTON.nButtonID ∘
        fun p : Nat × String =>
          (⟨(p.1 : Int) + kIDStart, p.2⟩ : TASKDIALOG_BUTTON)) =
        (fun j : Nat => (j : Int) + kIDStart) ∘ Prod.fst from rfl]
    rw [← List.map_map, List.enum_map_fst]
  · have hne : buttons ≠ [] :=
      List.ne_nil_of_length_pos (Nat.lt_of_le_of_lt (Nat.zero_le i) h)
    rw [showSync_eq parent type buttons cancel_id title message detail icon
      ((i : Int) + kIDStart) hne]
    have h0 : ¬((i : Int) + kIDStart = 0 ∨ (i : Int) + kIDStart = IDCANCEL) := by
      simp only [kIDStart, IDCANCEL]
      omega
    rw [if_neg h0]
    simp [kIDStart]

/-- Witness for C1 at buttons `["OK", "Cancel"]`, cancel index 1, chosen
button 0: the result is 0. -/
theorem claim_c1_chosen_button_position_witness :
    (0 : Nat) < (["OK", "Cancel"] : List String).length ∧
    ShowMessageBox none MessageBoxType.information ["OK", "Cancel"] 1 "title"
      "hello" "" ⟨none⟩ (((0 : Nat) : Int) + kIDStart) =
        some ((0 : Nat) : Int) :=
  ⟨by decide,
   (claim_c1_chosen_button_position none MessageBoxType.information
     ["OK", "Cancel"] 1 "title" "hello" "" ⟨none⟩ 0 (by decide)).2⟩

/-- Claim C2: when the native call yields no identifier (`id` keeps its
initial `0`) or the cancel identifier `IDCANCEL`, the synchronous show
operation returns exactly the supplied cancel index; both cases take the
same branch and produce the same value, so the caller cannot distinguish
user cancellation from a native-call failure. -/
theorem claim_c2_cancel_indistinguishable (parent : Option NativeWindow)
    (type : MessageBoxType) (buttons : List String) (cancel_id : Int)
    (title message detail : String) (icon : ImageSkia) (nativeId : Int)
    (hbuttons : buttons ≠ []) (h : nativeId = 0 ∨ nativeId = IDCANCEL) :
    ShowMessageBox parent type buttons cancel_id title message detail icon
      nativeId = some cancel_id ∧
    ShowMessageBox parent type buttons cancel_id title message detail icon 0 =
      ShowMessageBox parent type buttons cancel_id title message detail icon
        IDCANCEL := by
  rw [showSync_eq parent type buttons cancel_id title message detail icon
        nativeId hbuttons,
      showSync_eq parent type buttons cancel_id title message detail icon 0
        hbuttons,
      showSync_eq parent type buttons cancel_id title message detail icon
        IDCANCEL hbuttons]
  exact ⟨by rw [if_pos h], by rw [if_pos (Or.inl rfl), if_pos (Or.inr rfl)]⟩

/-- Witness for C2: dismissing the `["OK", "Cancel"]` dialog (native id
`IDCANCEL`) with cancel index 1 yields 1. -/
theorem claim_c2_cancel_indistinguishable_witness :
    (["OK", "Cancel"] : List String) ≠ [] ∧
    ShowMessageBox none MessageBoxType.warning ["OK", "Cancel"] 1 "title"
      "hello" "" ⟨none⟩ IDCANCEL = some 1 :=
  ⟨by decide,
   (claim_c2_cancel_indistinguishable none MessageBoxType.warning
     ["OK", "Cancel"] 1 "title" "hello" "" ⟨none⟩ IDCANCEL (by decide)
     (Or.inr rfl)).1⟩

/-- Claim C3: for every identifier the native dialog call may produce (a
registered button identifier, `0`, or `IDCANCEL`), the synchronous result is
either a zero-based index into the supplied button sequence or the supplied
cancel index — never any other integer. -/
theorem claim_c3_result_in_range (parent : Option NativeWindow)
    (type : MessageBoxType) (buttons : List String) (cancel_id : Int)
    (title message detail : String) (icon : ImageSkia) (nativeId : Int)
    (hbuttons : buttons ≠ []) (h : mayProduce buttons nativeId) :
    ∃ r : Int,
      ShowMessageBox parent type buttons cancel_id title message detail icon
        nativeId = some r ∧
      ((0 ≤ r ∧ r < (buttons.length : Int)) ∨ r = cancel_id) := by
  rw [showSync_eq parent type buttons cancel_id title message detail icon
    nativeId hbuttons]
  rcases h with h0 | hc | ⟨i, hi, hid⟩
  · exact ⟨cancel_id, by rw [if_pos (Or.inl h0)], Or.inr rfl⟩
  · exact ⟨cancel_id, by rw [if_pos (Or.inr hc)], Or.inr rfl⟩
  · refine ⟨(i : Int), ?_, Or.inl ⟨Int.natCast_nonneg i, by exact_mod_cast hi⟩⟩
    subst hid
    have hno : ¬((i : Int) + kIDStart = 0 ∨ (i : Int) + kIDStart = IDCANCEL) := by
      simp only [kIDStart, IDCANCEL]
      omega
    rw [if_neg hno]
    simp [kIDStart]

/-- Witness for C3: native id 101 (the second registered button) on
`["OK", "Cancel"]` with cancel index 1 gives a result that is an index or
the cancel index. -/
theorem claim_c3_result_in_range_witness :
    (["OK", "Cancel"] : List String) ≠ [] ∧
    ∃ r : Int,
      ShowMessageBox none MessageBoxType.error ["OK", "Cancel"] 1 "title"
        "hello" "" ⟨none⟩ 101 = some r ∧
      ((0 ≤ r ∧ r < ((["OK", "Cancel"] : List String).length : Int)) ∨
        r = 1) :=
  ⟨by decide,
   claim_c3_result_in_range none MessageBoxType.error ["OK", "Cancel"] 1
     "title" "hello" "" ⟨none⟩ 101 (by decide)
     (Or.inr (Or.inr ⟨1, by decide, by decide⟩))⟩

/-- Claim C4: when worker-thread startup fails, the asynchronous overload
invokes the callback immediately and synchronously on the calling (control)
thread with exactly the cancel index, and nothing else happens — no dialog
is shown, no task is posted, and the total model raises no exception. -/
theorem claim_c4_thread_start_failure (parent : Option NativeWindow)
    (type : MessageBoxType) (buttons : List String) (cancel_id : Int)
    (title message detail : String) (icon : ImageSkia) (nativeId : Int) :
    ShowMessageBoxAsync false parent type buttons cancel_id title message
        detail icon nativeId =
      some [Event.callbackInvoked cancel_id ThreadKind.control false] :=
  rfl

/-- Claim C5: when the worker thread starts, the asynchronous overload
delivers to the callback exactly the synchronous result for the same
arguments: the worker shows the dialog, posts the unchanged result back to
the control thread, then schedules the thread object for deferred
destruction on that same control thread. -/
theorem claim_c5_async_refines_sync (parent : Option NativeWindow)
    (type : MessageBoxType) (buttons : List String) (cancel_id : Int)
    (title message detail : String) (icon : ImageSkia) (nativeId : Int)
    (r : Int)
    (h : ShowMessageBox parent type buttons cancel_id title message detail
      icon nativeId = some r) :
    ShowMessageBoxAsync true parent type buttons cancel_id title message
        detail icon nativeId =
      some [Event.dialogShown ThreadKind.worker,
            Event.callbackInvoked r ThreadKind.control true,
            Event.threadObjectDeleted ThreadKind.control] := by
  simp [ShowMessageBoxAsync, RunMessageBoxInNewThread, h]

/-- Witness for C5: on `["OK"]` with native id 100 the synchronous result is
0, and the asynchronous trace delivers 0 to the control thread. -/
theorem claim_c5_async_refines_sync_witness :
    ShowMessageBoxAsync true none MessageBoxType.information ["OK"] 0 "title"
        "hello" "" ⟨none⟩ 100 =
      some [Event.dialogShown ThreadKind.worker,
            Event.callbackInvoked 0 ThreadKind.control true,
            Event.threadObjectDeleted ThreadKind.control] :=
  claim_c5_async_refines_sync none MessageBoxType.information ["OK"] 0
    "title" "hello" "" ⟨none⟩ 100 0 (by decide)

/-- Claim C6: with an empty detail string the message goes into the content
field and no main instruction is set; with a non-empty detail string the
message goes into the highlighted main-instruction field and the detail into
the content field. -/
theorem claim_c6_detail_placement (parent : Option HWND)
    (type : MessageBoxType) (buttons : List String) (cancel_id : Int)
    (title message detail : String) (icon : ImageSkia)
    (h : buttons ≠ []) :
    ∃ cfg, ShowMessageBoxUTF16Config parent type buttons cancel_id title
        message detail icon = some cfg ∧
      (detail.isEmpty = true →
        cfg.pszContent = some message ∧ cfg.pszMainInstruction = none) ∧
      (detail.isEmpty = false →
        cfg.pszMainInstruction = some message ∧
        cfg.pszContent = some detail) := by
  cases buttons with
  | nil => exact absurd rfl h
  | cons b bs =>
    obtain ⟨ib⟩ := icon
    cases ib with
    | none =>
      refine ⟨_, rfl, ?_, ?_⟩ <;> intro hd <;>
        simp [ShowMessageBoxUTF16Config, hd]
    | some bitmap =>
      refine ⟨_, rfl, ?_, ?_⟩ <;> intro hd <;>
        simp [ShowMessageBoxUTF16Config, hd]

/-- Witness for C6 with a non-empty detail string: the message becomes the
main instruction and the detail the content. -/
theorem claim_c6_detail_placement_witness :
    (["OK"] : List String) ≠ [] ∧
    ∃ cfg, ShowMessageBoxUTF16Config none MessageBoxType.information ["OK"] 0
        "title" "hello" "world" ⟨none⟩ = some cfg ∧
      (("world" : String).isEmpty = true →
        cfg.pszContent = some "hello" ∧ cfg.pszMainInstruction = none) ∧
      (("world" : String).isEmpty = false →
        cfg.pszMainInstruction = some "hello" ∧
        cfg.pszContent = some "world") :=
  ⟨by decide,
   claim_c6_detail_placement none MessageBoxType.information ["OK"] 0 "title"
     "hello" "world" ⟨none⟩ (by decide)⟩

/-- Claim C7: a supplied (non-null) icon image is converted to the native
icon representation, used as the main icon with the `TDF_USE_HICON_MAIN`
flag, and the type-based built-in icon is not selected; only with no icon
image is the built-in glyph chosen by the type enumeration. -/
theorem claim_c7_icon_precedence (parent : Option HWND)
    (type : MessageBoxType) (buttons : List String) (cancel_id : Int)
    (title message detail : String) (icon : ImageSkia)
    (h : buttons ≠ []) :
    ∃ cfg, ShowMessageBoxUTF16Config parent type buttons cancel_id title
        message detail icon = some cfg ∧
      (∀ bitmap, icon.bitmap = some bitmap →
        cfg.hMainIcon = some (IconUtil.CreateHICONFromSkBitmap bitmap) ∧
        cfg.dwFlags &&& TDF_USE_HICON_MAIN ≠ 0 ∧
        cfg.pszMainIcon = none) ∧
      (icon.bitmap = none →
        cfg.hMainIcon = none ∧
        cfg.pszMainIcon = some (builtinIconFor type) ∧
        cfg.dwFlags &&& TDF_USE_HICON_MAIN = 0) := by
  cases buttons with
  | nil => exact absurd rfl h
  | cons b bs =>
    obtain ⟨ib⟩ := icon
    by_cases hc : cancel_id = 0 <;> cases hd : detail.isEmpty <;>
      cases ib with
      | none =>
        refine ⟨_, rfl, by simp, ?_⟩
        simp [ShowMessageBoxUTF16Config, hd, hc,
          TDF_SIZE_TO_CONTENT, TDF_ALLOW_DIALOG_CANCELLATION,
          TDF_USE_HICON_MAIN]
        decide
      | some bitmap =>
        exact ⟨_, rfl, by
          simp [ShowMessageBoxUTF16Config, hd, hc,
            TDF_SIZE_TO_CONTENT, TDF_ALLOW_DIALOG_CANCELLATION,
            TDF_USE_HICON_MAIN], by
          simp [ShowMessageBoxUTF16Config, hd]⟩

/-- Witness for C7 with a supplied icon image: it is converted and used as
the main icon, and the built-in icon is not selected. -/
theorem claim_c7_icon_precedence_witness :
    (["OK"] : List String) ≠ [] ∧
    ∃ cfg, ShowMessageBoxUTF16Config none MessageBoxType.error ["OK"] 1
        "title" "hello" "world" ⟨some ⟨7⟩⟩ = some cfg ∧
      (∀ bitmap, (ImageSkia.mk (some ⟨7⟩)).bitmap = some bitmap →
        cfg.hMainIcon = some (IconUtil.CreateHICONFromSkBitmap bitmap) ∧
        cfg.dwFlags &&& TDF_USE_HICON_MAIN ≠ 0 ∧
        cfg.pszMainIcon = none) ∧
      ((ImageSkia.mk (some ⟨7⟩)).bitmap = none →
        cfg.hMainIcon = none ∧
        cfg.pszMainIcon = some (builtinIconFor MessageBoxType.error) ∧
        cfg.dwFlags &&& TDF_USE_HICON_MAIN = 0) :=
  ⟨by decide,
   claim_c7_icon_precedence none MessageBoxType.error ["OK"] 1 "title"
     "hello" "world" ⟨some ⟨7⟩⟩ (by decide)⟩

/-- Claim C8: the auto-size-to-content flag `TDF_SIZE_TO_CONTENT` is always
set on the dialog configuration, and `TDF_ALLOW_DIALOG_CANCELLATION` is set
if and only if the supplied cancel index is non-zero. -/
theorem claim_c8_dialog_flags (parent : Option HWND)
    (type : MessageBoxType) (buttons : List String) (cancel_id : Int)
    (title message detail : String) (icon : ImageSkia)
    (h : buttons ≠ []) :
    ∃ cfg, ShowMessageBoxUTF16Config parent type buttons cancel_id title
        message detail icon = some cfg ∧
      cfg.dwFlags &&& TDF_SIZE_TO_CONTENT ≠ 0 ∧
      (cfg.dwFlags &&& TDF_ALLOW_DIALOG_CANCELLATION ≠ 0 ↔ cancel_id ≠ 0) := by
  cases buttons with
  | nil => exact absurd rfl h
  | cons b bs =>
    obtain ⟨ib⟩ := icon
    by_cases hc : cancel_id = 0 <;> cases hd : detail.isEmpty <;>
      cases ib <;>
      exact ⟨_, rfl, by
        simp [ShowMessageBoxUTF16Config, hd, hc,
          TDF_SIZE_TO_CONTENT, TDF_ALLOW_DIALOG_CANCELLATION,
          TDF_USE_HICON_MAIN] <;> decide⟩

/-- Witness for C8 at a non-zero cancel index: both the size-to-content and
the cancellation flags are set. -/
theorem claim_c8_dialog_flags_witness :
    (["OK", "Cancel"] : List String) ≠ [] ∧
    ∃ cfg, ShowMessageBoxUTF16Config none MessageBoxType.warning
        ["OK", "Cancel"] 1 "title" "hello" "" ⟨none⟩ = some cfg ∧
      cfg.dwFlags &&& TDF_SIZE_TO_CONTENT ≠ 0 ∧
      (cfg.dwFlags &&& TDF_ALLOW_DIALOG_CANCELLATION ≠ 0 ↔ (1 : Int) ≠ 0) :=
  ⟨by decide,
   claim_c8_dialog_flags none MessageBoxType.warning ["OK", "Cancel"] 1
     "title" "hello" "" ⟨none⟩ (by decide)⟩

/-- Claim C9: `ShowErrorBox` has an empty body, so for every title and
content it produces no observable effect — no dialog, no callback, no
thread. -/
theorem claim_c9_error_box_noop (title content : String) :
    ShowErrorBox title content = [] :=
  rfl

/-- Claim C10: the synchronous show operation is well-defined exactly when
the button sequence is non-empty: with an empty sequence the configuration
takes the address of `front()` of an empty vector, modelled as `none`, so
the operation produces a result if and only if the button list is
non-empty. -/
theorem claim_c10_nonempty_precondition (parent : Option NativeWindow)
    (type : MessageBoxType) (buttons : List String) (cancel_id : Int)
    (title message detail : String) (icon : ImageSkia) (nativeId : Int) :
    (ShowMessageBox parent type buttons cancel_id title message detail icon
      nativeId).isSome ↔ buttons ≠ [] := by
  cases buttons with
  | nil =>
    simp [ShowMessageBox, ShowMessageBoxUTF16, ShowMessageBoxUTF16Config,
      mkDialogButtons]
  | cons b bs =>
    simp [showSync_eq parent type (b :: bs) cancel_id title message detail
      icon nativeId (List.cons_ne_nil b bs)]

end Atom
